import Mathlib

/-!
Shallow embedding of the JesterToolbox plugin's core subsystems:

* `UGameStateInitialization` (Source/JesterToolbox/Private/Core/GameStateInitialization.cpp):
  staged initialization sequencer with deferred event bindings.
* `UManagerLocatorSubsystem` (Source/JesterToolbox/Private/Core/ManagerLocatorSubsystem.cpp):
  class-keyed service locator over two collections.
* `UAssetsLocatorService` (Source/JesterToolbox/Private/Core/AssetsLocatorService.cpp):
  tag-keyed asset registry with category flattening.

Engine collaborators are modelled at their interface: `FGameplayTag` as a
string, `UClass` as the class's superclass chain from the root (so
`UClass::IsChildOf` is the walk-to-root is-a check, i.e. chain-prefix),
object identity as a `Nat`, and the `IsValid`/`IsUnreachable` liveness oracle
as a `Nat → Bool` parameter.  Machine `int` indices are `Nat` where the source
keeps them non-negative, with `TArray::Find`'s INDEX_NONE = -1 kept as `Int`.
-/

namespace JesterToolbox

/-- `FGameplayTag`, modelled as its full string name. -/
abbrev Tag := String

/-- A `UClass`, modelled as the chain of class names from the root class down
to the class itself (so a class's chain extends its superclass's chain). -/
abbrev UClass := List String

/-- `UClass::IsChildOf(Parent)`: walk-to-root is-a check; in the chain model,
`Parent`'s chain is an initial segment of the child's chain (reflexive). -/
def IsChildOf (c Parent : UClass) : Bool := List.isPrefixOf Parent c

/-- `AActor::StaticClass()`. -/
def AActorClass : UClass := ["Object", "Actor"]

/-- `UActorComponent::StaticClass()`. -/
def UActorComponentClass : UClass := ["Object", "ActorComponent"]

/-! ## GameStateInitialization -/

/-- `FGameStateInitializationEvent` (GameStateInitialization.h, lines 11-39). -/
structure GSEvent where
  State : Tag
  Object : Nat
  FunctionName : String
  bIsPostState : Bool
deriving DecidableEq, Repr

/-- Observable effects of the sequencer: a `CallFunctionByName` invocation on a
receiver, the `OnGameStateInitializationChanged` broadcast, and the
`OnGameStateFullyInitialized` broadcast (which carries `FGameplayTag::EmptyTag`,
modelled as `""`). -/
inductive Obs where
  | call (Object : Nat) (FunctionName : String)
  | stageChanged (NewState : Tag)
  | fullyInited (t : Tag)
deriving DecidableEq, Repr

/-- `FGameStateInitializationEvent::Execute()` (GameStateInitialization.h,
lines 32-38): invokes the function by name only when the receiver is still
valid and reachable; `Valid` is the engine's liveness oracle. -/
def ExecuteEvent (Valid : Nat → Bool) (e : GSEvent) : List Obs :=
  if Valid e.Object then [Obs.call e.Object e.FunctionName] else []

/-- State of a `UGameStateInitialization` component. `bTickEnabled` mirrors
`SetComponentTickEnabled`. -/
structure GSState where
  OrderedInitializationSteps : List Tag
  InitializationIndex : Nat
  InitializationEvents : List GSEvent
  bTickEnabled : Bool
deriving DecidableEq, Repr

/-- `TArray<FGameplayTag>::Find`: index of the first occurrence, or
INDEX_NONE = -1 when absent (GameStateInitialization.cpp lines 29 and 62). -/
def FindTag (l : List Tag) (t : Tag) : Int :=
  if t ∈ l then (l.indexOf t : Int) else -1

/-- `UGameStateInitialization::IsStateAlreadyInitialized`
(GameStateInitialization.cpp lines 27-30):
`OrderedInitializationSteps.Find(State) < InitializationIndex`. -/
def IsStateAlreadyInitialized (st : GSState) (State : Tag) : Bool :=
  decide (FindTag st.OrderedInitializationSteps State < (st.InitializationIndex : Int))

/-- `UGameStateInitialization::IsCurrentState` (GameStateInitialization.cpp
lines 32-35): `IsValidIndex(InitializationIndex) && Steps[InitializationIndex] == State`. -/
def IsCurrentState (st : GSState) (State : Tag) : Bool :=
  decide (st.InitializationIndex < st.OrderedInitializationSteps.length) &&
    (st.OrderedInitializationSteps.getD st.InitializationIndex "" == State)

/-- The due-event test of the tick loop (GameStateInitialization.cpp lines
62-72): `EventStateIdx == InitializationIndex && !bIsPostState`, or
`bIsPostState && EventStateIdx < InitializationIndex`, with the index already
incremented. -/
def CodeDue (Steps : List Tag) (NewIndex : Nat) (e : GSEvent) : Bool :=
  (FindTag Steps e.State == (NewIndex : Int) && !e.bIsPostState) ||
    (e.bIsPostState && decide (FindTag Steps e.State < (NewIndex : Int)))

/-- `UGameStateInitialization::TickComponent` (GameStateInitialization.cpp
lines 41-97).  Returns the updated state and the ordered trace of observable
effects.  The source's triggered-index collection followed by descending
`RemoveAt` keeps exactly the non-due events in order, i.e. a filter; events
are executed in array order during the loop, before the broadcast. -/
def TickComponent (Valid : Nat → Bool) (IsStepReadyToAdvance : Tag → Bool)
    (st : GSState) : GSState × List Obs :=
  if st.InitializationIndex ≥ st.OrderedInitializationSteps.length then (st, [])
  else if IsStepReadyToAdvance (st.OrderedInitializationSteps.getD st.InitializationIndex "") = false then
    (st, [])
  else
    let NewIndex := st.InitializationIndex + 1
    if NewIndex < st.OrderedInitializationSteps.length then
      let Triggered := st.InitializationEvents.filter (CodeDue st.OrderedInitializationSteps NewIndex)
      let Remaining := st.InitializationEvents.filter (fun e => !CodeDue st.OrderedInitializationSteps NewIndex e)
      ({ st with InitializationIndex := NewIndex, InitializationEvents := Remaining },
        Triggered.flatMap (ExecuteEvent Valid) ++
          [Obs.stageChanged (st.OrderedInitializationSteps.getD NewIndex "")])
    else
      ({ st with InitializationIndex := NewIndex, bTickEnabled := false },
        (st.InitializationEvents.filter
            (fun e => e.State == st.OrderedInitializationSteps.getLastD "")).flatMap (ExecuteEvent Valid) ++
          [Obs.fullyInited ""])

/-- `UGameStateInitialization::BindToInitializationStep`
(GameStateInitialization.cpp lines 99-108). -/
def BindToInitializationStep (Valid : Nat → Bool) (st : GSState)
    (State : Tag) (Object : Nat) (FunctionName : String) (bIsPostState : Bool) :
    GSState × List Obs :=
  let NewEvent : GSEvent := ⟨State, Object, FunctionName, bIsPostState⟩
  if IsStateAlreadyInitialized st State || (IsCurrentState st State && !bIsPostState) then
    (st, ExecuteEvent Valid NewEvent)
  else
    ({ st with InitializationEvents := st.InitializationEvents ++ [NewEvent] }, [])

/-- The due-event predicate as the specification words it: the binding's stage
equals `sequence[c]` and it is not post, or it is post and the stage's index is
below `c` (with `index` the source's `Find`). -/
def ClaimDue (Steps : List Tag) (NewIndex : Nat) (e : GSEvent) : Bool :=
  ((e.State == Steps.getD NewIndex "") && !e.bIsPostState) ||
    (e.bIsPostState && decide (FindTag Steps e.State < (NewIndex : Int)))

/-! ## ManagerLocatorSubsystem -/

/-- A registered actor manager: its concrete `UClass` and its object identity. -/
structure MActor where
  Cls : UClass
  Id : Nat
deriving DecidableEq, Repr

/-- A registered component manager: its concrete `UClass`, its object identity,
and the identity of its owning actor (`GetOwner()`). -/
structure MComp where
  Cls : UClass
  Id : Nat
  Owner : Nat
deriving DecidableEq, Repr

/-- State of `UManagerLocatorSubsystem`: the two `TArray` collections
(ManagerLocatorSubsystem.h lines 37-41). -/
structure LocState where
  ActorManagers : List MActor
  ComponentManagers : List MComp
deriving DecidableEq, Repr

/-- `UManagerLocatorSubsystem::RegisterActorManager`
(ManagerLocatorSubsystem.cpp lines 6-22), in a development (non-shipping)
build so the duplicate-class check is compiled in.  The returned `Bool` is
whether the duplicate-class conflict was logged (`UE_LOG Error`); on conflict
the function returns before adding.  The `OnDestroyed` delegate rebinding has
no effect on the registry state and is modelled by calling the handler
functions explicitly. -/
def RegisterActorManager (st : LocState) (Manager : MActor) : LocState × Bool :=
  if st.ActorManagers.any (fun ExistingManager => ExistingManager.Cls == Manager.Cls) then
    (st, true)
  else
    ({ st with ActorManagers := st.ActorManagers ++ [Manager] }, false)

/-- `UManagerLocatorSubsystem::RegisterComponentManager`
(ManagerLocatorSubsystem.cpp lines 24-40), same conventions as
`RegisterActorManager`. -/
def RegisterComponentManager (st : LocState) (Manager : MComp) : LocState × Bool :=
  if st.ComponentManagers.any (fun ExistingManager => ExistingManager.Cls == Manager.Cls) then
    (st, true)
  else
    ({ st with ComponentManagers := st.ComponentManagers ++ [Manager] }, false)

/-- The non-null result of `GetManager`: a manager from one of the two
collections. -/
inductive FoundManager where
  | actorM (m : MActor)
  | compM (m : MComp)
deriving DecidableEq, Repr

/-- `UManagerLocatorSubsystem::GetManager` (ManagerLocatorSubsystem.cpp lines
66-95).  Returns the resolved manager (or `none` for nullptr) and whether the
not-found error was logged.  Note the source's control flow: a null class
returns early without logging; if the class is an `AActor` subtype only the
actor collection is scanned (a miss falls through to the error log without
scanning components), else if it is a `UActorComponent` subtype only the
component collection is scanned. -/
def GetManager (st : LocState) (ManagerClass : Option UClass) :
    Option FoundManager × Bool :=
  match ManagerClass with
  | none => (none, false)
  | some c =>
    if IsChildOf c AActorClass then
      match st.ActorManagers.find? (fun Manager => IsChildOf Manager.Cls c) with
      | some Manager => (some (FoundManager.actorM Manager), false)
      | none => (none, true)
    else if IsChildOf c UActorComponentClass then
      match st.ComponentManagers.find? (fun Manager => IsChildOf Manager.Cls c) with
      | some Manager => (some (FoundManager.compM Manager), false)
      | none => (none, true)
    else (none, true)

/-- `UManagerLocatorSubsystem::HandleComponentManagerOwnerDestroyed`
(ManagerLocatorSubsystem.cpp lines 97-107): collects the components whose
owner was destroyed into `ComponentsToRemove`, but never removes them — the
registry state is returned unchanged, exactly as in the source. -/
def HandleComponentManagerOwnerDestroyed (st : LocState) (Owner : Nat) : LocState :=
  let _ComponentsToRemove :=
    st.ComponentManagers.filter (fun Manager => Manager.Owner == Owner)
  st

/-! ## AssetsLocatorService -/

/-- A registered asset object: its concrete `UClass` and its object identity. -/
structure AssetObj where
  Cls : UClass
  Id : Nat
deriving DecidableEq, Repr

/-- `FAssetCategory` (AssetsLocatorService.h lines 11-21): the per-category
Tag→Object and Tag→Class maps, modelled as association lists in insertion
order. -/
structure FAssetCategory where
  Assets : List (Tag × AssetObj)
  Classes : List (Tag × UClass)
deriving DecidableEq, Repr

/-- State of a `UAssetsLocatorService` (AssetsLocatorService.h lines 43-55). -/
structure AssetsState where
  RegisteredAssets : List (String × FAssetCategory)
  Assets : List (Tag × AssetObj)
  Classes : List (Tag × UClass)
  bInitialized : Bool
deriving DecidableEq, Repr

/-- `TMap::Add`: replaces the value when the key is already present, otherwise
inserts the new pair. -/
def MapAdd {V : Type} (m : List (Tag × V)) (Key : Tag) (Value : V) :
    List (Tag × V) :=
  if m.any (fun p => p.1 == Key) then
    m.map (fun p => if p.1 == Key then (Key, Value) else p)
  else m ++ [(Key, Value)]

/-- `TMap::Find`: the value stored for the key, if any. -/
def MapFind {V : Type} (m : List (Tag × V)) (Key : Tag) : Option V :=
  List.lookup Key m

/-- The flattening loop of `UAssetsLocatorService::Initialize` restricted to
the object map: for each category in order, `Assets.Add(Pair.Key, Pair.Value)`
for each pair (AssetsLocatorService.cpp lines 16-21). -/
def FlattenedAssets (Categories : List (String × FAssetCategory))
    (Acc : List (Tag × AssetObj)) : List (Tag × AssetObj) :=
  Categories.foldl
    (fun m Category => Category.2.Assets.foldl (fun mm p => MapAdd mm p.1 p.2) m) Acc

/-- The flattening loop of `UAssetsLocatorService::Initialize` restricted to
the class map (AssetsLocatorService.cpp lines 23-26). -/
def FlattenedClasses (Categories : List (String × FAssetCategory))
    (Acc : List (Tag × UClass)) : List (Tag × UClass) :=
  Categories.foldl
    (fun m Category => Category.2.Classes.foldl (fun mm p => MapAdd mm p.1 p.2) m) Acc

/-- `UAssetsLocatorService::Initialize` (AssetsLocatorService.cpp lines 8-29):
no-op when `bInitialized` is already set; otherwise flattens the category maps
into the two flat maps and sets `bInitialized`.  The source's single loop
interleaves the two inner loops per category; since each touches a disjoint
map, this equals the two per-map folds. -/
def Initialize (st : AssetsState) : AssetsState :=
  if st.bInitialized then st
  else
    { st with
      Assets := FlattenedAssets st.RegisteredAssets st.Assets,
      Classes := FlattenedClasses st.RegisteredAssets st.Classes,
      bInitialized := true }

/-- Result of `UAssetsLocatorService::GetAsset`: either the stored object, or
one of the two `checkf` fatal-assertion branches (type mismatch / tag not
found). -/
inductive GetAssetResult where
  | ok (Asset : AssetObj)
  | assertTypeMismatch
  | assertNotFound
deriving DecidableEq, Repr

/-- `UAssetsLocatorService::GetAsset` (AssetsLocatorService.cpp lines 31-43):
looks the tag up in the flat object map; when found, `checkf` that the
expected class is null or the stored object's class is a child of it, then
returns the object; when absent, `checkf(false)`.  The fatal branches are the
`checkf` failures of a debug-oriented build. -/
def GetAsset (st : AssetsState) (t : Tag) (ExpectedClass : Option UClass) :
    GetAssetResult :=
  match MapFind st.Assets t with
  | some Asset =>
    if (match ExpectedClass with
        | none => true
        | some ec => IsChildOf Asset.Cls ec) then
      GetAssetResult.ok Asset
    else GetAssetResult.assertTypeMismatch
  | none => GetAssetResult.assertNotFound

/-- No two registered actor managers share a concrete class. -/
def UniqueActorClasses (l : List MActor) : Prop :=
  l.Pairwise (fun a b => a.Cls ≠ b.Cls)

/-- No two registered component managers share a concrete class. -/
def UniqueComponentClasses (l : List MComp) : Prop :=
  l.Pairwise (fun a b => a.Cls ≠ b.Cls)

/-- Example sequencer state for the C4 witness: stage "A" passed, cursor on "B". -/
def BindExampleState : GSState := ⟨["A", "B"], 1, [], true⟩

/-- Example assets-service state for the C10 witness. -/
def BuildExampleState : AssetsState :=
  ⟨[("Weapons", ⟨[("Asset.Data.Sword", ⟨["Object", "DataAsset", "WeaponData"], 1⟩)],
      [("Asset.Class.Sword", ["Object", "Actor", "SwordActor"])]⟩)], [], [], false⟩

/-- Example locator state for the C7 witness: one actor manager and one
component manager already registered. -/
def RegisterExampleState : LocState :=
  ⟨[⟨["Object", "Actor", "GameModeManager"], 1⟩],
    [⟨["Object", "ActorComponent", "HealthManager"], 3, 7⟩]⟩

/-- Example locator state for the C8 witness: a base-class actor manager
registered before a derived-class one, plus one component manager. -/
def ResolveExampleState : LocState :=
  ⟨[⟨["Object", "Actor", "Base"], 1⟩, ⟨["Object", "Actor", "Base", "Derived"], 2⟩],
    [⟨["Object", "ActorComponent", "HealthManager"], 3, 7⟩]⟩

/-- Example built assets-service state for the C9 witness. -/
def AssetExampleState : AssetsState :=
  ⟨[], [("Asset.Data.Sword", ⟨["Object", "DataAsset", "WeaponData"], 1⟩)], [], true⟩

/-! ## Helper lemmas -/

theorem findTag_of_not_mem {l : List Tag} {t : Tag} (h : t ∉ l) : FindTag l t = -1 := by
  simp [FindTag, h]

theorem findTag_eq_iff {l : List Tag} {c : Nat} {t : Tag} (hnd : l.Nodup)
    (hc : c < l.length) : FindTag l t = (c : Int) ↔ l.getD c "" = t := by
  have hget : l.getD c "" = l.get ⟨c, hc⟩ := by
    rw [List.getD_eq_get?, List.get?_eq_get hc]; rfl
  constructor
  · intro h
    by_cases hmem : t ∈ l
    · simp only [FindTag, if_pos hmem] at h
      have hidx : List.indexOf t l = c := by exact_mod_cast h
      rw [hget]
      subst hidx
      exact List.indexOf_get _
    · rw [findTag_of_not_mem hmem] at h
      omega
  · intro h
    have hmem : t ∈ l := by rw [← h, hget]; exact l.get_mem _ _
    simp only [FindTag, if_pos hmem]
    have : List.indexOf t l = c := by
      rw [← h, hget]
      exact List.get_indexOf hnd ⟨c, hc⟩
    exact_mod_cast this

theorem codeDue_eq_claimDue {Steps : List Tag} {NewIndex : Nat} (hnd : Steps.Nodup)
    (hc : NewIndex < Steps.length) (e : GSEvent) :
    CodeDue Steps NewIndex e = ClaimDue Steps NewIndex e := by
  have h1 : (FindTag Steps e.State == (NewIndex : Int)) =
      (e.State == Steps.getD NewIndex "") := by
    rw [Bool.eq_iff_iff]
    simp only [beq_iff_eq]
    rw [findTag_eq_iff hnd hc]
    exact eq_comm
  simp only [CodeDue, ClaimDue, h1]

theorem find?_of_first {α : Type} (p : α → Bool) (l : List α) :
    ∀ (i : Nat) (hi : i < l.length), p (l.get ⟨i, hi⟩) = true →
      (∀ (j : Nat) (hj : j < l.length), j < i → p (l.get ⟨j, hj⟩) = false) →
      l.find? p = some (l.get ⟨i, hi⟩) := by
  induction l with
  | nil => intro i hi; exact absurd hi (by simp)
  | cons a l ih =>
    intro i hi hp hmin
    cases i with
    | zero => exact List.find?_cons_of_pos _ hp
    | succ i =>
      have ha : p a = false := hmin 0 (by omega) (by omega)
      rw [List.find?_cons_of_neg _ (by simp [ha])]
      exact ih i (by simpa using hi) (by simpa using hp)
        (fun j hj hji => by simpa using hmin (j + 1) (by omega) (by omega))

/-! ## Claims -/

/-- C2: the claim states that for every cursor value and every tag absent from
the stage sequence, `IsStateAlreadyInitialized` returns false.  The code
violates it: `TArray::Find` returns INDEX_NONE = -1 for an absent tag, and
-1 < InitializationIndex holds for every cursor value, so an unknown tag is
always reported as already initialized.  Concretely, with stage sequence
["A"] and cursor 0, the absent tag "B" is reported as already initialized. -/
theorem C2_absent_tag_reported_inited :
    ("B" ∉ (["A"] : List Tag)) ∧
      IsStateAlreadyInitialized ⟨["A"], 0, [], true⟩ "B" = true := by
  exact ⟨by decide, by decide⟩

/-- C6: the claim states that after the owner-destroyed signal has run for a
registered component manager, `GetManager` never returns that instance again.
The code violates it: `HandleComponentManagerOwnerDestroyed` collects
`ComponentsToRemove` but never removes them, so the handler leaves the
registry unchanged and `GetManager` still returns the manager whose owner was
destroyed. -/
theorem C6_stale_entry_survives_owner_destruction :
    HandleComponentManagerOwnerDestroyed
        ((RegisterComponentManager ⟨[], []⟩ ⟨["Object", "ActorComponent", "HealthManager"], 1, 7⟩).1) 7 =
      (RegisterComponentManager ⟨[], []⟩ ⟨["Object", "ActorComponent", "HealthManager"], 1, 7⟩).1 ∧
    (GetManager
        (HandleComponentManagerOwnerDestroyed
          ((RegisterComponentManager ⟨[], []⟩ ⟨["Object", "ActorComponent", "HealthManager"], 1, 7⟩).1) 7)
        (some ["Object", "ActorComponent", "HealthManager"])).1 =
      some (FoundManager.compM ⟨["Object", "ActorComponent", "HealthManager"], 1, 7⟩) := by
  exact ⟨rfl, by decide⟩

/-- C10: `Initialize` is idempotent — the first call (on an unbuilt service)
flattens the category maps into the two flat maps, and every later call is a
no-op, so any number of additional calls leaves the state equal to the state
after exactly one call. -/
theorem C10_build_idempotent (st : AssetsState) :
    (st.bInitialized = false →
      Initialize st =
        { st with
          Assets := FlattenedAssets st.RegisteredAssets st.Assets,
          Classes := FlattenedClasses st.RegisteredAssets st.Classes,
          bInitialized := true }) ∧
    ∀ n : Nat, Initialize^[n + 1] st = Initialize st := by
  have hidem : ∀ s : AssetsState, Initialize (Initialize s) = Initialize s := by
    intro s
    by_cases h : s.bInitialized
    · simp [Initialize, h]
    · simp [Initialize, h]
  constructor
  · intro h; simp [Initialize, h]
  · intro n
    induction n with
    | zero => simp
    | succ n ih => rw [Function.iterate_succ_apply', ih, hidem]

/-- Witness for C10 at a concrete unbuilt service with one category. -/
theorem C10_build_idempotent_witness :
    BuildExampleState.bInitialized = false ∧
    Initialize BuildExampleState =
      { BuildExampleState with
        Assets := FlattenedAssets BuildExampleState.RegisteredAssets BuildExampleState.Assets,
        Classes := FlattenedClasses BuildExampleState.RegisteredAssets BuildExampleState.Classes,
        bInitialized := true } ∧
    Initialize^[2] BuildExampleState = Initialize BuildExampleState :=
  ⟨rfl, (C10_build_idempotent BuildExampleState).1 rfl,
    (C10_build_idempotent BuildExampleState).2 1⟩

/-- C4: `BindToInitializationStep` executes the new binding immediately (and
does not store it) exactly when the target stage is already initialized, or it
is the current stage and the binding is not post-state; in every other case
the binding is appended to the pending set and nothing is executed. -/
theorem C4_bind_immediate_iff (Valid : Nat → Bool) (st : GSState) (State : Tag)
    (Object : Nat) (FunctionName : String) (bIsPostState : Bool) :
    ((IsStateAlreadyInitialized st State = true ∨
        (IsCurrentState st State = true ∧ bIsPostState = false)) →
      BindToInitializationStep Valid st State Object FunctionName bIsPostState =
        (st, ExecuteEvent Valid ⟨State, Object, FunctionName, bIsPostState⟩)) ∧
    (¬(IsStateAlreadyInitialized st State = true ∨
        (IsCurrentState st State = true ∧ bIsPostState = false)) →
      BindToInitializationStep Valid st State Object FunctionName bIsPostState =
        ({ st with InitializationEvents :=
            st.InitializationEvents ++ [⟨State, Object, FunctionName, bIsPostState⟩] }, [])) := by
  have hcond : ((IsStateAlreadyInitialized st State ||
      (IsCurrentState st State && !bIsPostState)) = true) ↔
      (IsStateAlreadyInitialized st State = true ∨
        (IsCurrentState st State = true ∧ bIsPostState = false)) := by
    simp [Bool.not_eq_true']
  constructor
  · intro h
    simp only [BindToInitializationStep]
    rw [if_pos (hcond.mpr h)]
  · intro h
    simp only [BindToInitializationStep]
    rw [if_neg (fun hc => h (hcond.mp hc))]

/-- Witness for C4: on a sequencer with stages ["A", "B"] and cursor 1,
binding to the passed stage "A" executes immediately, while a post-state
binding to the current stage "B" is stored. -/
theorem C4_bind_immediate_iff_witness :
    BindToInitializationStep (fun _ => true) BindExampleState "A" 5 "OnA" false =
      (BindExampleState, ExecuteEvent (fun _ => true) ⟨"A", 5, "OnA", false⟩) ∧
    BindToInitializationStep (fun _ => true) BindExampleState "B" 6 "OnB" true =
      ({ BindExampleState with InitializationEvents :=
          BindExampleState.InitializationEvents ++ [⟨"B", 6, "OnB", true⟩] }, []) :=
  ⟨(C4_bind_immediate_iff (fun _ => true) BindExampleState "A" 5 "OnA" false).1
      (Or.inl (by decide)),
    (C4_bind_immediate_iff (fun _ => true) BindExampleState "B" 6 "OnB" true).2
      (by decide)⟩

/-- C7: registering a manager whose exact concrete class is already present in
the same collection logs the conflict and leaves the collection unchanged
(first registrant stays); otherwise the manager is appended without a log; in
consequence each collection keeps at most one registrant per concrete class. -/
theorem C7_register_duplicate_noop (st : LocState) (a : MActor) (c : MComp) :
    ((∃ x ∈ st.ActorManagers, x.Cls = a.Cls) → RegisterActorManager st a = (st, true)) ∧
    ((∀ x ∈ st.ActorManagers, x.Cls ≠ a.Cls) →
      RegisterActorManager st a =
        ({ st with ActorManagers := st.ActorManagers ++ [a] }, false)) ∧
    (UniqueActorClasses st.ActorManagers →
      UniqueActorClasses ((RegisterActorManager st a).1.ActorManagers)) ∧
    ((∃ x ∈ st.ComponentManagers, x.Cls = c.Cls) →
      RegisterComponentManager st c = (st, true)) ∧
    ((∀ x ∈ st.ComponentManagers, x.Cls ≠ c.Cls) →
      RegisterComponentManager st c =
        ({ st with ComponentManagers := st.ComponentManagers ++ [c] }, false)) ∧
    (UniqueComponentClasses st.ComponentManagers →
      UniqueComponentClasses ((RegisterComponentManager st c).1.ComponentManagers)) := by
  have hanyA : (st.ActorManagers.any (fun ExistingManager => ExistingManager.Cls == a.Cls) = true) ↔
      ∃ x ∈ st.ActorManagers, x.Cls = a.Cls := by
    simp
  have hanyC : (st.ComponentManagers.any (fun ExistingManager => ExistingManager.Cls == c.Cls) = true) ↔
      ∃ x ∈ st.ComponentManagers, x.Cls = c.Cls := by
    simp
  refine ⟨?_, ?_, ?_, ?_, ?_, ?_⟩
  · intro h
    simp only [RegisterActorManager]
    rw [if_pos (hanyA.mpr h)]
  · intro h
    simp only [RegisterActorManager]
    rw [if_neg (fun hc => by
      obtain ⟨x, hx, he⟩ := hanyA.mp hc
      exact h x hx he)]
  · intro hu
    by_cases hany : st.ActorManagers.any (fun ExistingManager => ExistingManager.Cls == a.Cls) = true
    · simp only [RegisterActorManager]
      rw [if_pos hany]
      exact hu
    · simp only [RegisterActorManager]
      rw [if_neg hany]
      simp only [UniqueActorClasses] at hu ⊢
      rw [List.pairwise_append]
      refine ⟨hu, by simp, ?_⟩
      intro x hx b hb
      have hb1 : b = a := by simpa using hb
      subst hb1
      intro he
      exact hany (hanyA.mpr ⟨x, hx, he⟩)
  · intro h
    simp only [RegisterComponentManager]
    rw [if_pos (hanyC.mpr h)]
  · intro h
    simp only [RegisterComponentManager]
    rw [if_neg (fun hc => by
      obtain ⟨x, hx, he⟩ := hanyC.mp hc
      exact h x hx he)]
  · intro hu
    by_cases hany : st.ComponentManagers.any (fun ExistingManager => ExistingManager.Cls == c.Cls) = true
    · simp only [RegisterComponentManager]
      rw [if_pos hany]
      exact hu
    · simp only [RegisterComponentManager]
      rw [if_neg hany]
      simp only [UniqueComponentClasses] at hu ⊢
      rw [List.pairwise_append]
      refine ⟨hu, by simp, ?_⟩
      intro x hx b hb
      have hb1 : b = c := by simpa using hb
      subst hb1
      intro he
      exact hany (hanyC.mpr ⟨x, hx, he⟩)

/-- Witness for C7: a second actor (resp. component) manager of an
already-registered concrete class is dropped with a logged conflict; a fresh
class is appended; class-uniqueness is preserved in both cases. -/
theorem C7_register_duplicate_noop_witness :
    RegisterActorManager RegisterExampleState ⟨["Object", "Actor", "GameModeManager"], 2⟩ =
      (RegisterExampleState, true) ∧
    RegisterComponentManager RegisterExampleState ⟨["Object", "ActorComponent", "HealthManager"], 4, 8⟩ =
      (RegisterExampleState, true) ∧
    RegisterActorManager ⟨[], []⟩ ⟨["Object", "Actor", "GameModeManager"], 1⟩ =
      (⟨[⟨["Object", "Actor", "GameModeManager"], 1⟩], []⟩, false) ∧
    UniqueActorClasses
      ((RegisterActorManager RegisterExampleState ⟨["Object", "Actor", "GameModeManager"], 2⟩).1.ActorManagers) ∧
    UniqueComponentClasses
      ((RegisterComponentManager RegisterExampleState ⟨["Object", "ActorComponent", "HealthManager"], 4, 8⟩).1.ComponentManagers) :=
  ⟨(C7_register_duplicate_noop RegisterExampleState
        ⟨["Object", "Actor", "GameModeManager"], 2⟩
        ⟨["Object", "ActorComponent", "HealthManager"], 4, 8⟩).1
      ⟨⟨["Object", "Actor", "GameModeManager"], 1⟩, by decide, rfl⟩,
    (C7_register_duplicate_noop RegisterExampleState
        ⟨["Object", "Actor", "GameModeManager"], 2⟩
        ⟨["Object", "ActorComponent", "HealthManager"], 4, 8⟩).2.2.2.1
      ⟨⟨["Object", "ActorComponent", "HealthManager"], 3, 7⟩, by decide, rfl⟩,
    (C7_register_duplicate_noop ⟨[], []⟩
        ⟨["Object", "Actor", "GameModeManager"], 1⟩
        ⟨["Object", "ActorComponent", "HealthManager"], 4, 8⟩).2.1
      (by decide),
    (C7_register_duplicate_noop RegisterExampleState
        ⟨["Object", "Actor", "GameModeManager"], 2⟩
        ⟨["Object", "ActorComponent", "HealthManager"], 4, 8⟩).2.2.1
      (by unfold UniqueActorClasses; decide),
    (C7_register_duplicate_noop RegisterExampleState
        ⟨["Object", "Actor", "GameModeManager"], 2⟩
        ⟨["Object", "ActorComponent", "HealthManager"], 4, 8⟩).2.2.2.2.2
      (by unfold UniqueComponentClasses; decide)⟩

/-- C8: `GetManager` with a non-null class scans the actor collection when the
class is an `AActor` subtype, else the component collection when it is a
`UActorComponent` subtype; it returns the first entry in registration order
whose concrete class is the requested class or a subtype of it, and logs an
error and returns null when no entry matches. -/
theorem C8_resolve_first_match (st : LocState) (c : UClass) :
    (IsChildOf c AActorClass = true →
      (∀ (i : Nat) (hi : i < st.ActorManagers.length),
          IsChildOf (st.ActorManagers.get ⟨i, hi⟩).Cls c = true →
          (∀ (j : Nat) (hj : j < st.ActorManagers.length), j < i →
            IsChildOf (st.ActorManagers.get ⟨j, hj⟩).Cls c = false) →
          GetManager st (some c) =
            (some (FoundManager.actorM (st.ActorManagers.get ⟨i, hi⟩)), false)) ∧
      ((∀ m ∈ st.ActorManagers, IsChildOf m.Cls c = false) →
        GetManager st (some c) = (none, true))) ∧
    (IsChildOf c AActorClass = false → IsChildOf c UActorComponentClass = true →
      (∀ (i : Nat) (hi : i < st.ComponentManagers.length),
          IsChildOf (st.ComponentManagers.get ⟨i, hi⟩).Cls c = true →
          (∀ (j : Nat) (hj : j < st.ComponentManagers.length), j < i →
            IsChildOf (st.ComponentManagers.get ⟨j, hj⟩).Cls c = false) →
          GetManager st (some c) =
            (some (FoundManager.compM (st.ComponentManagers.get ⟨i, hi⟩)), false)) ∧
      ((∀ m ∈ st.ComponentManagers, IsChildOf m.Cls c = false) →
        GetManager st (some c) = (none, true))) := by
  constructor
  · intro hA
    constructor
    · intro i hi hp hmin
      have hfind := find?_of_first (fun Manager => IsChildOf Manager.Cls c)
        st.ActorManagers i hi hp hmin
      simp only [GetManager]
      rw [if_pos hA, hfind]
    · intro h
      have hfind : st.ActorManagers.find? (fun Manager => IsChildOf Manager.Cls c) = none :=
        List.find?_eq_none.mpr (fun x hx => by simp [h x hx])
      simp only [GetManager]
      rw [if_pos hA, hfind]
  · intro hA hC
    constructor
    · intro i hi hp hmin
      have hfind := find?_of_first (fun Manager => IsChildOf Manager.Cls c)
        st.ComponentManagers i hi hp hmin
      simp only [GetManager]
      rw [if_neg (by simp [hA]), if_pos hC, hfind]
    · intro h
      have hfind : st.ComponentManagers.find? (fun Manager => IsChildOf Manager.Cls c) = none :=
        List.find?_eq_none.mpr (fun x hx => by simp [h x hx])
      simp only [GetManager]
      rw [if_neg (by simp [hA]), if_pos hC, hfind]

/-- Witness for C8: resolving by the base actor class returns the
first-registered (base) manager rather than the later derived one; resolving
an unregistered actor class logs and returns null; resolving a component
class scans the component collection. -/
theorem C8_resolve_first_match_witness :
    GetManager ResolveExampleState (some ["Object", "Actor", "Base"]) =
      (some (FoundManager.actorM ⟨["Object", "Actor", "Base"], 1⟩), false) ∧
    GetManager ResolveExampleState (some ["Object", "Actor", "Missing"]) = (none, true) ∧
    GetManager ResolveExampleState (some ["Object", "ActorComponent", "HealthManager"]) =
      (some (FoundManager.compM ⟨["Object", "ActorComponent", "HealthManager"], 3, 7⟩), false) :=
  ⟨((C8_resolve_first_match ResolveExampleState ["Object", "Actor", "Base"]).1
      (by decide)).1 0 (by decide) (by decide)
      (fun j hj hj0 => absurd hj0 (Nat.not_lt_zero j)),
    ((C8_resolve_first_match ResolveExampleState ["Object", "Actor", "Missing"]).1
      (by decide)).2 (by decide),
    ((C8_resolve_first_match ResolveExampleState ["Object", "ActorComponent", "HealthManager"]).2
      (by decide) (by decide)).1 0 (by decide) (by decide)
      (fun j hj hj0 => absurd hj0 (Nat.not_lt_zero j))⟩

/-- C9: `GetAsset` returns the stored object exactly when the tag is present
and the expected class is absent or the stored object's class is the expected
class or a subtype of it; an absent tag reaches the not-found fatal assertion,
and a present tag with a failing type check reaches the type-mismatch fatal
assertion. -/
theorem C9_asset_type_gate (st : AssetsState) (t : Tag) (ec : Option UClass) :
    (∀ o : AssetObj, GetAsset st t ec = GetAssetResult.ok o ↔
        (MapFind st.Assets t = some o ∧
          (ec = none ∨ ∃ cl : UClass, ec = some cl ∧ IsChildOf o.Cls cl = true))) ∧
    (MapFind st.Assets t = none → GetAsset st t ec = GetAssetResult.assertNotFound) ∧
    (∀ (o : AssetObj) (cl : UClass), MapFind st.Assets t = some o → ec = some cl →
      IsChildOf o.Cls cl = false → GetAsset st t ec = GetAssetResult.assertTypeMismatch) := by
  refine ⟨?_, ?_, ?_⟩
  · intro o
    cases hfind : MapFind st.Assets t with
    | none => simp [GetAsset, hfind]
    | some Asset =>
      cases ec with
      | none =>
        have hval : GetAsset st t none = GetAssetResult.ok Asset := by
          simp [GetAsset, hfind]
        rw [hval]
        constructor
        · intro h
          have ho : Asset = o := by injection h
          subst ho
          exact ⟨rfl, Or.inl rfl⟩
        · rintro ⟨h1, -⟩
          have ho : Asset = o := by injection h1
          rw [ho]
      | some cl =>
        by_cases hch : IsChildOf Asset.Cls cl = true
        · have hval : GetAsset st t (some cl) = GetAssetResult.ok Asset := by
            simp [GetAsset, hfind, hch]
          rw [hval]
          constructor
          · intro h
            have ho : Asset = o := by injection h
            subst ho
            exact ⟨rfl, Or.inr ⟨cl, rfl, hch⟩⟩
          · rintro ⟨h1, -⟩
            have ho : Asset = o := by injection h1
            rw [ho]
        · have hch2 : IsChildOf Asset.Cls cl = false := by simpa using hch
          have hval : GetAsset st t (some cl) = GetAssetResult.assertTypeMismatch := by
            simp [GetAsset, hfind, hch2]
          rw [hval]
          constructor
          · intro h
            exact absurd h (by simp)
          · rintro ⟨h1, h2⟩
            have ho : Asset = o := by injection h1
            rcases h2 with h2 | ⟨cl2, hcl2, hch3⟩
            · exact absurd h2 (by simp)
            · have hcc : cl2 = cl := by
                injection hcl2 with h
                exact h.symm
              subst hcc
              rw [← ho] at hch3
              exact absurd hch3 (by simp [hch2])
  · intro h
    simp [GetAsset, h]
  · intro o cl hfind hec hch
    subst hec
    simp [GetAsset, hfind, hch]

/-- Witness for C9: on a built service holding one object of class
WeaponData, looking it up with the DataAsset superclass succeeds, an absent
tag hits the not-found assertion, and an unrelated expected class hits the
type-mismatch assertion. -/
theorem C9_asset_type_gate_witness :
    GetAsset AssetExampleState "Asset.Data.Sword" (some ["Object", "DataAsset"]) =
      GetAssetResult.ok ⟨["Object", "DataAsset", "WeaponData"], 1⟩ ∧
    GetAsset AssetExampleState "Asset.Data.Missing" none = GetAssetResult.assertNotFound ∧
    GetAsset AssetExampleState "Asset.Data.Sword" (some ["Object", "Actor"]) =
      GetAssetResult.assertTypeMismatch :=
  ⟨((C9_asset_type_gate AssetExampleState "Asset.Data.Sword" (some ["Object", "DataAsset"])).1
      ⟨["Object", "DataAsset", "WeaponData"], 1⟩).mpr
      ⟨by decide, Or.inr ⟨["Object", "DataAsset"], rfl, by decide⟩⟩,
    (C9_asset_type_gate AssetExampleState "Asset.Data.Missing" none).2.1 (by decide),
    (C9_asset_type_gate AssetExampleState "Asset.Data.Sword" (some ["Object", "Actor"])).2.2
      ⟨["Object", "DataAsset", "WeaponData"], 1⟩ ["Object", "Actor"] (by decide) rfl (by decide)⟩

theorem tick_noop_of_done {Valid : Nat → Bool} {Ready : Tag → Bool} {st : GSState}
    (h : st.InitializationIndex ≥ st.OrderedInitializationSteps.length) :
    TickComponent Valid Ready st = (st, []) := by
  simp only [TickComponent]
  rw [if_pos h]

theorem tick_noop_of_not_ready {Valid : Nat → Bool} {Ready : Tag → Bool} {st : GSState}
    (h1 : st.InitializationIndex < st.OrderedInitializationSteps.length)
    (h2 : Ready (st.OrderedInitializationSteps.getD st.InitializationIndex "") = false) :
    TickComponent Valid Ready st = (st, []) := by
  simp only [TickComponent]
  rw [if_neg (by omega), if_pos h2]

theorem tick_advance_mid {Valid : Nat → Bool} {Ready : Tag → Bool} {st : GSState}
    (h1 : st.InitializationIndex < st.OrderedInitializationSteps.length)
    (h2 : Ready (st.OrderedInitializationSteps.getD st.InitializationIndex "") = true)
    (h3 : st.InitializationIndex + 1 < st.OrderedInitializationSteps.length) :
    TickComponent Valid Ready st =
      ({ st with
          InitializationIndex := st.InitializationIndex + 1,
          InitializationEvents := st.InitializationEvents.filter
            (fun e => !CodeDue st.OrderedInitializationSteps (st.InitializationIndex + 1) e) },
        (st.InitializationEvents.filter
            (CodeDue st.OrderedInitializationSteps (st.InitializationIndex + 1))).flatMap
            (ExecuteEvent Valid) ++
          [Obs.stageChanged
            (st.OrderedInitializationSteps.getD (st.InitializationIndex + 1) "")]) := by
  simp only [TickComponent]
  rw [if_neg (by omega), if_neg (by simp only [h2]; decide), if_pos h3]

theorem tick_advance_terminal {Valid : Nat → Bool} {Ready : Tag → Bool} {st : GSState}
    (h1 : st.InitializationIndex < st.OrderedInitializationSteps.length)
    (h2 : Ready (st.OrderedInitializationSteps.getD st.InitializationIndex "") = true)
    (h3 : ¬ st.InitializationIndex + 1 < st.OrderedInitializationSteps.length) :
    TickComponent Valid Ready st =
      ({ st with InitializationIndex := st.InitializationIndex + 1, bTickEnabled := false },
        (st.InitializationEvents.filter
            (fun e => e.State == st.OrderedInitializationSteps.getLastD "")).flatMap
            (ExecuteEvent Valid) ++
          [Obs.fullyInited ""]) := by
  simp only [TickComponent]
  rw [if_neg (by omega), if_neg (by simp only [h2]; decide), if_neg h3]

/-- C1: on a tick where the cursor is in range, the current stage's readiness
predicate passes, and the incremented cursor `c` is still below the stage
count, exactly the pending bindings satisfying (stage equals `sequence[c]` and
not post) or (post and stage index below `c`, with index the source's `Find`)
are executed and removed from the pending set, and all of their executions
appear in the trace before the stage-changed notification carrying
`sequence[c]`.  The stage sequence is assumed duplicate-free, as the data
model requires. -/
theorem C1_tick_runs_due_bindings_before_notification (Valid : Nat → Bool)
    (Ready : Tag → Bool) (st : GSState)
    (hnd : st.OrderedInitializationSteps.Nodup)
    (hidx : st.InitializationIndex < st.OrderedInitializationSteps.length)
    (hready : Ready (st.OrderedInitializationSteps.getD st.InitializationIndex "") = true)
    (hnext : st.InitializationIndex + 1 < st.OrderedInitializationSteps.length) :
    TickComponent Valid Ready st =
      ({ st with
          InitializationIndex := st.InitializationIndex + 1,
          InitializationEvents := st.InitializationEvents.filter
            (fun e => !ClaimDue st.OrderedInitializationSteps (st.InitializationIndex + 1) e) },
        (st.InitializationEvents.filter
            (ClaimDue st.OrderedInitializationSteps (st.InitializationIndex + 1))).flatMap
            (ExecuteEvent Valid) ++
          [Obs.stageChanged
            (st.OrderedInitializationSteps.getD (st.InitializationIndex + 1) "")]) := by
  rw [tick_advance_mid hidx hready hnext]
  have hfil1 : st.InitializationEvents.filter
      (CodeDue st.OrderedInitializationSteps (st.InitializationIndex + 1)) =
      st.InitializationEvents.filter
        (ClaimDue st.OrderedInitializationSteps (st.InitializationIndex + 1)) :=
    List.filter_congr (fun e _ => codeDue_eq_claimDue hnd hnext e)
  have hfil2 : st.InitializationEvents.filter
      (fun e => !CodeDue st.OrderedInitializationSteps (st.InitializationIndex + 1) e) =
      st.InitializationEvents.filter
        (fun e => !ClaimDue st.OrderedInitializationSteps (st.InitializationIndex + 1) e) :=
    List.filter_congr (fun e _ => by rw [codeDue_eq_claimDue hnd hnext e])
  rw [hfil1, hfil2]

/-- Witness for C1: stages ["A", "B", "C"], cursor 0, four pending bindings.
The pre-"B" binding, the post-"A" binding, and a post binding to an unknown
stage fire (in pending order) before the stage-changed notification for "B";
the pre-"C" binding stays pending. -/
theorem C1_tick_runs_due_bindings_witness :
    TickComponent (fun _ => true) (fun _ => true)
        ⟨["A", "B", "C"], 0,
          [⟨"B", 1, "PreB", false⟩, ⟨"C", 2, "PreC", false⟩,
            ⟨"A", 3, "PostA", true⟩, ⟨"Zed", 4, "PostZ", true⟩], true⟩ =
      (⟨["A", "B", "C"], 1, [⟨"C", 2, "PreC", false⟩], true⟩,
        [Obs.call 1 "PreB", Obs.call 3 "PostA", Obs.call 4 "PostZ",
          Obs.stageChanged "B"]) := by
  have h := C1_tick_runs_due_bindings_before_notification (fun _ => true) (fun _ => true)
    ⟨["A", "B", "C"], 0,
      [⟨"B", 1, "PreB", false⟩, ⟨"C", 2, "PreC", false⟩,
        ⟨"A", 3, "PostA", true⟩, ⟨"Zed", 4, "PostZ", true⟩], true⟩
    (by decide) (by decide) rfl (by decide)
  exact h.trans (by decide)

/-- C3: on the tick that advances the cursor from N-1 to N, every pending
binding whose stage equals the last stage fires regardless of its post flag,
the fully-initialized notification is broadcast after those executions, and
every subsequent tick is a no-op (same state, empty trace). -/
theorem C3_terminal_sweep (Valid : Nat → Bool) (Ready : Tag → Bool) (st : GSState)
    (hlast : st.InitializationIndex + 1 = st.OrderedInitializationSteps.length)
    (hready : Ready (st.OrderedInitializationSteps.getD st.InitializationIndex "") = true) :
    TickComponent Valid Ready st =
      ({ st with
          InitializationIndex := st.OrderedInitializationSteps.length,
          bTickEnabled := false },
        (st.InitializationEvents.filter
            (fun e => e.State == st.OrderedInitializationSteps.getLastD "")).flatMap
            (ExecuteEvent Valid) ++
          [Obs.fullyInited ""]) ∧
    ∀ (Valid2 : Nat → Bool) (Ready2 : Tag → Bool),
      TickComponent Valid2 Ready2
          ({ st with
              InitializationIndex := st.OrderedInitializationSteps.length,
              bTickEnabled := false }) =
        ({ st with
            InitializationIndex := st.OrderedInitializationSteps.length,
            bTickEnabled := false }, []) := by
  constructor
  · rw [tick_advance_terminal (by omega) hready (by omega), hlast]
  · intro Valid2 Ready2
    exact tick_noop_of_done (by simp)

/-- Witness for C3: stages ["A", "B"], cursor 1, one post-flagged binding to
the last stage "B"; the completing tick fires it and broadcasts
fully-initialized, and the next tick is a no-op. -/
theorem C3_terminal_sweep_witness :
    TickComponent (fun _ => true) (fun _ => true)
        ⟨["A", "B"], 1, [⟨"B", 9, "OnB", true⟩], true⟩ =
      (⟨["A", "B"], 2, [⟨"B", 9, "OnB", true⟩], false⟩,
        [Obs.call 9 "OnB", Obs.fullyInited ""]) ∧
    TickComponent (fun _ => true) (fun _ => true)
        ⟨["A", "B"], 2, [⟨"B", 9, "OnB", true⟩], false⟩ =
      (⟨["A", "B"], 2, [⟨"B", 9, "OnB", true⟩], false⟩, []) := by
  have h := C3_terminal_sweep (fun _ => true) (fun _ => true)
    ⟨["A", "B"], 1, [⟨"B", 9, "OnB", true⟩], true⟩ (by decide) rfl
  exact ⟨h.1.trans (by decide), (h.2 (fun _ => true) (fun _ => true)).trans (by decide)⟩

/-- C5: a single tick advances the cursor by at most one stage, whatever the
readiness predicate returns; concretely, with stages ["A", "B", "C"] and an
always-true readiness predicate, three consecutive ticks move the cursor
0→1→2→3, never reaching 3 in fewer calls. -/
theorem C5_one_stage_per_tick :
    (∀ (Valid : Nat → Bool) (Ready : Tag → Bool) (st : GSState),
      ((TickComponent Valid Ready st).1).InitializationIndex ≤ st.InitializationIndex + 1) ∧
    ((TickComponent (fun _ => true) (fun _ => true)
        ⟨["A", "B", "C"], 0, [], true⟩).1).InitializationIndex = 1 ∧
    ((TickComponent (fun _ => true) (fun _ => true)
        ((TickComponent (fun _ => true) (fun _ => true)
          ⟨["A", "B", "C"], 0, [], true⟩).1)).1).InitializationIndex = 2 ∧
    ((TickComponent (fun _ => true) (fun _ => true)
        ((TickComponent (fun _ => true) (fun _ => true)
          ((TickComponent (fun _ => true) (fun _ => true)
            ⟨["A", "B", "C"], 0, [], true⟩).1)).1)).1).InitializationIndex = 3 := by
  refine ⟨?_, by decide, by decide, by decide⟩
  intro Valid Ready st
  by_cases h1 : st.InitializationIndex ≥ st.OrderedInitializationSteps.length
  · rw [tick_noop_of_done h1]
    show st.InitializationIndex ≤ st.InitializationIndex + 1
    omega
  · have h1l : st.InitializationIndex < st.OrderedInitializationSteps.length := by omega
    by_cases h2 : Ready (st.OrderedInitializationSteps.getD st.InitializationIndex "") = true
    · by_cases h3 : st.InitializationIndex + 1 < st.OrderedInitializationSteps.length
      · rw [tick_advance_mid h1l h2 h3]
      · rw [tick_advance_terminal h1l h2 h3]
    · rw [tick_noop_of_not_ready h1l (by simpa using h2)]
      show st.InitializationIndex ≤ st.InitializationIndex + 1
      omega

end JesterToolbox
